import Mathlib

/-!
Shallow embedding of the slice-navigation, intensity-normalization,
click-mapping, playback and transfer-function logic of the NIfTI viewer
(src/main.py), together with theorems settling the specification claims.

Scalars, brightness and contrast values are modelled as rationals; qt
slider values and voxel indices as integers.  Python floor division `//`
is `Int.fdiv`; `int(...)` applied to a nonnegative float is `Int.floor`;
`np.uint8` conversion after `np.clip(..., 0, 255)` coincides with
`Int.floor` on the clipped nonnegative range.  A handler that raises an
exception is modelled as returning `none`.
-/

namespace NiftiViewer

/-- The three orthogonal viewing planes, keyed as in the per-view
dictionaries of `ImageViewer`. -/
inductive Plane
  | xy
  | xz
  | zy
deriving DecidableEq

/-- Per-viewer state mutated by the UI callbacks of `ImageViewer`: the
three slice-slider values, the per-plane brightness and contrast
dictionaries, the three zoom levels and the optional crosshair. -/
structure ViewerState where
  xy_idx : ℤ
  xz_idx : ℤ
  zy_idx : ℤ
  brightness : Plane → ℚ
  contrast : Plane → ℚ
  zoom_xy : ℚ
  zoom_xz : ℚ
  zoom_yz : ℚ
  crosshair : Option (ℤ × ℤ)

/-- The state set up in `ImageViewer.__init__`: brightness 0 and contrast 1
for each plane, zoom level 0.4 for each view, slider values at 0 and no
crosshair. -/
def initState : ViewerState where
  xy_idx := 0
  xz_idx := 0
  zy_idx := 0
  brightness := fun _ => 0
  contrast := fun _ => 1
  zoom_xy := 0.4
  zoom_xz := 0.4
  zoom_yz := 0.4
  crosshair := none

/-- `QSlider.setValue` clamps the requested value into `[minimum, maximum]`;
every slider in this program has minimum 0. -/
def setValue (maxv v : ℤ) : ℤ := min maxv (max 0 v)

/-- Slider-value part of `ImageViewer.update_slice` (the playback tick
body): the slider is set to `value + 1` when `value < maximum - 1` and
reset to 0 otherwise, where `m` is the slider maximum. -/
def update_slice_value (m v : ℤ) : ℤ := if v < m - 1 then v + 1 else 0

/-- One playback tick on a view whose axis extent is `extent`; the slice
slider for that axis has maximum `extent - 1`. -/
def tickAdvance (extent v : ℤ) : ℤ := update_slice_value (extent - 1) v

/-- `ImageViewer.update_brightness`, the callback connected to the
brightness sliders: it writes `self.contrast[view] = value / 100.0`. -/
def update_brightness (s : ViewerState) (value : ℚ) (view : Plane) : ViewerState :=
  { s with contrast := fun p => if p = view then value / 100 else s.contrast p }

/-- `ImageViewer.update_contrast`, the callback connected to the contrast
sliders: it writes `self.brightness[view] = value`. -/
def update_contrast (s : ViewerState) (value : ℚ) (view : Plane) : ViewerState :=
  { s with brightness := fun p => if p = view then value else s.brightness p }

/-- `np.min` over a slice or volume stored as a flat list (0 for the empty
list, which cannot occur for a loaded volume). -/
def listMin : List ℚ → ℚ
  | [] => 0
  | v :: vs => vs.foldl min v

/-- `np.max` over a slice or volume stored as a flat list. -/
def listMax : List ℚ → ℚ
  | [] => 0
  | v :: vs => vs.foldl max v

/-- `np.clip(x, 0, 255)`. -/
def clip255 (x : ℚ) : ℚ := min (max x 0) 255

/-- Per-pixel body of `ImageViewer.display_image`: normalize against the
slice minimum and maximum (zero when the slice is flat), multiply by the
contrast, add the brightness, clip to `[0, 255]` and quantize to `uint8`. -/
def code_pixel (b c mn mx v : ℚ) : ℤ :=
  Int.floor (clip255 ((if mx ≠ mn then (v - mn) / (mx - mn) * 255 else 0) * c + b))

/-- `ImageViewer.display_image` on a slice stored as a flat list of
scalars, with brightness `b` and contrast `c` for the plane being drawn. -/
def display_image (b c : ℚ) (img : List ℚ) : List ℤ :=
  img.map (code_pixel b c (listMin img) (listMax img))

/-- The display formula as the claim words it: the displayed pixel is the
8-bit quantization of `clamp(((v - min)/(max - min) * 255) * c + b, 0, 255)`. -/
def specDisplayPixel (b c mn mx v : ℚ) : ℤ :=
  Int.floor (min (max ((v - mn) / (mx - mn) * 255 * c + b) 0) 255)

/-- `ImageViewer.mouse_press_event_xy`.  `shape` is `none` before any
volume is loaded (`image_array is None`); the handler reads
`image_array.shape` before the `None` guard, so the empty state is
modelled as the error result `none` (`AttributeError`).  `inRect` is the
`label.rect().contains(event.pos())` test, `pix` the size `(Cw, Ch)` of
the current pixmap scaled to fit the `Lw × Lh` label, `(px, py)` the
click position in label coordinates. -/
def mouse_press_event_xy (shape : Option (ℤ × ℤ × ℤ)) (inRect : Bool)
    (Lw Lh : ℤ) (pix : Option (ℤ × ℤ)) (px py : ℤ) (s : ViewerState) :
    Option ViewerState :=
  match shape, inRect, pix with
  | none, _, _ => none
  | some _, false, _ => some s
  | some _, true, none => some s
  | some (_, D1, D2), true, some (Cw, Ch) =>
    if 0 ≤ px - Int.fdiv (Lw - Cw) 2 ∧ px - Int.fdiv (Lw - Cw) 2 < Cw ∧
        0 ≤ py - Int.fdiv (Lh - Ch) 2 ∧ py - Int.fdiv (Lh - Ch) 2 < Ch then
      some { s with
        xz_idx := setValue (D1 - 1) ((D1 - 1) -
          Int.floor (((py - Int.fdiv (Lh - Ch) 2 : ℤ) : ℚ) / ((Ch : ℤ) : ℚ) * ((D1 : ℤ) : ℚ))),
        zy_idx := setValue (D2 - 1) ((D2 - 1) -
          Int.floor (((px - Int.fdiv (Lw - Cw) 2 : ℤ) : ℚ) / ((Cw : ℤ) : ℚ) * ((D2 : ℤ) : ℚ))),
        crosshair := some (px, py) }
    else some s

/-- `ImageViewer.mouse_press_event_zy`, with the same conventions as
`mouse_press_event_xy`; its slice has width `D1` and height `D0`, and it
writes the xy and xz sliders. -/
def mouse_press_event_zy (shape : Option (ℤ × ℤ × ℤ)) (inRect : Bool)
    (Lw Lh : ℤ) (pix : Option (ℤ × ℤ)) (px py : ℤ) (s : ViewerState) :
    Option ViewerState :=
  match shape, inRect, pix with
  | none, _, _ => none
  | some _, false, _ => some s
  | some _, true, none => some s
  | some (D0, D1, _), true, some (Cw, Ch) =>
    if 0 ≤ px - Int.fdiv (Lw - Cw) 2 ∧ px - Int.fdiv (Lw - Cw) 2 < Cw ∧
        0 ≤ py - Int.fdiv (Lh - Ch) 2 ∧ py - Int.fdiv (Lh - Ch) 2 < Ch then
      some { s with
        xy_idx := setValue (D0 - 1) ((D0 - 1) -
          Int.floor (((py - Int.fdiv (Lh - Ch) 2 : ℤ) : ℚ) / ((Ch : ℤ) : ℚ) * ((D0 : ℤ) : ℚ))),
        xz_idx := setValue (D1 - 1) ((D1 - 1) -
          Int.floor (((px - Int.fdiv (Lw - Cw) 2 : ℤ) : ℚ) / ((Cw : ℤ) : ℚ) * ((D1 : ℤ) : ℚ))),
        crosshair := some (px, py) }
    else some s

/-- `ImageViewer.load_image` on a volume of shape `(D0, D1, D2)`: each
slider maximum becomes `extent - 1`, each slider value is set to
`(extent - 1) // 2` and the crosshair is cleared. -/
def load_image (D0 D1 D2 : ℤ) (s : ViewerState) : ViewerState :=
  { s with
    xy_idx := setValue (D0 - 1) (Int.fdiv (D0 - 1) 2),
    xz_idx := setValue (D1 - 1) (Int.fdiv (D1 - 1) 2),
    zy_idx := setValue (D2 - 1) (Int.fdiv (D2 - 1) 2),
    crosshair := none }

/-- The four `(position, r, g, b)` control points that the transfer-function
builder of `VolumeRenderer` adds to the color transfer function, in
emission order. -/
def color_points (vol : List ℚ) : List (ℚ × ℚ × ℚ × ℚ) :=
  [(listMin vol, 0, 0, 0),
   (listMax vol * 0.25, 0.85, 0.55, 0.3),
   (listMax vol * 0.5, 0.95, 0.85, 0.7),
   (listMax vol, 1, 1, 1)]

/-- The four `(position, opacity)` control points added to the opacity
transfer function, in emission order. -/
def opacity_points (vol : List ℚ) : List (ℚ × ℚ) :=
  [(listMin vol, 0),
   (listMax vol * 0.25, 0.1),
   (listMax vol * 0.5, 0.4),
   (listMax vol, 1)]

/-- Boolean test that a list of scalar positions is strictly increasing. -/
def strictIncr : List ℚ → Bool
  | [] => true
  | [_] => true
  | a :: b :: t => (decide (a < b)) && strictIncr (b :: t)

/-! ### Helper lemmas -/

lemma setValue_eq (m v : ℤ) (h0 : 0 ≤ v) (hm : v ≤ m) : setValue m v = v := by
  unfold setValue
  rw [max_eq_right h0, min_eq_right hm]

lemma floorMap_nonneg (t C S : ℤ) (ht : 0 ≤ t) (hC : 0 < C) (hS : 0 ≤ S) :
    0 ≤ Int.floor (((t : ℤ) : ℚ) / ((C : ℤ) : ℚ) * ((S : ℤ) : ℚ)) := by
  apply Int.le_floor.mpr
  have h1 : (0 : ℚ) ≤ (t : ℚ) := by exact_mod_cast ht
  have h2 : (0 : ℚ) < (C : ℚ) := by exact_mod_cast hC
  have h3 : (0 : ℚ) ≤ (S : ℚ) := by exact_mod_cast hS
  simpa using mul_nonneg (div_nonneg h1 h2.le) h3

lemma floorMap_lt (t C S : ℤ) (ht : 0 ≤ t) (htC : t < C) (hS : 0 < S) :
    Int.floor (((t : ℤ) : ℚ) / ((C : ℤ) : ℚ) * ((S : ℤ) : ℚ)) < S := by
  have hC : (0 : ℚ) < (C : ℚ) := by exact_mod_cast lt_of_le_of_lt ht htC
  have hSQ : (0 : ℚ) < (S : ℚ) := by exact_mod_cast hS
  apply Int.floor_lt.mpr
  have hdiv : (t : ℚ) / (C : ℚ) < 1 := (div_lt_one hC).mpr (by exact_mod_cast htC)
  calc (t : ℚ) / (C : ℚ) * (S : ℚ) < 1 * (S : ℚ) :=
        mul_lt_mul_of_pos_right hdiv hSQ
    _ = (S : ℚ) := one_mul _

lemma foldl_min_const (a : ℚ) (l : List ℚ) (h : ∀ x ∈ l, x = a) :
    l.foldl min a = a := by
  induction l with
  | nil => rfl
  | cons x t ih =>
    have hx : x = a := h x (List.mem_cons_self x t)
    have ht : ∀ y ∈ t, y = a := fun y hy => h y (List.mem_cons_of_mem x hy)
    rw [List.foldl_cons, hx, min_self]
    exact ih ht

lemma foldl_max_const (a : ℚ) (l : List ℚ) (h : ∀ x ∈ l, x = a) :
    l.foldl max a = a := by
  induction l with
  | nil => rfl
  | cons x t ih =>
    have hx : x = a := h x (List.mem_cons_self x t)
    have ht : ∀ y ∈ t, y = a := fun y hy => h y (List.mem_cons_of_mem x hy)
    rw [List.foldl_cons, hx, max_self]
    exact ih ht

lemma listMin_eq_listMax (img : List ℚ) (v0 : ℚ) (h : ∀ v ∈ img, v = v0) :
    listMin img = listMax img := by
  cases img with
  | nil => rfl
  | cons v vs =>
    have hv : v = v0 := h v (List.mem_cons_self _ _)
    have hvs : ∀ y ∈ vs, y = v0 := fun y hy => h y (List.mem_cons_of_mem _ hy)
    subst hv
    show vs.foldl min v = vs.foldl max v
    rw [foldl_min_const v vs hvs, foldl_max_const v vs hvs]

/-! ### Claim C1 -/

/-- C1 (code bug): with extent 5 the slice slider has maximum 4; from index
3 = extent - 2 one playback tick resets the slider to 0 instead of advancing
to (3 + 1) mod 5 = 4, so the last slice is never visited. -/
theorem playback_tick_skips_last_slice :
    tickAdvance 5 3 = 0 ∧ (3 + 1) % 5 = 4 ∧ tickAdvance 5 4 = 0 := by
  decide

/-! ### Claim C2 -/

/-- C2 is false as stated: the brightness-slider callback at raw value 200
on view xy changes the contrast of that view from 1 to 2 while leaving its
brightness untouched. -/
theorem brightness_callback_mutates_contrast :
    (update_brightness initState 200 Plane.xy).contrast Plane.xy = 2 ∧
    initState.contrast Plane.xy = 1 ∧
    (update_brightness initState 200 Plane.xy).brightness Plane.xy = 0 := by
  refine ⟨?_, rfl, rfl⟩
  show (if Plane.xy = Plane.xy then (200 : ℚ) / 100 else initState.contrast Plane.xy) = 2
  norm_num

/-- C2 amended: the wiring is swapped relative to the slider names —
`update_brightness` writes only the contrast entry of its view (to
`value / 100`), leaving every brightness entry unchanged, and
`update_contrast` writes only the brightness entry of its view (to the raw
value), leaving every contrast entry unchanged. -/
theorem slider_callbacks_swapped (s : ViewerState) (value : ℚ) (view : Plane) :
    ((update_brightness s value view).brightness = s.brightness ∧
      ∀ p, (update_brightness s value view).contrast p =
        if p = view then value / 100 else s.contrast p) ∧
    ((update_contrast s value view).contrast = s.contrast ∧
      ∀ p, (update_contrast s value view).brightness p =
        if p = view then value else s.brightness p) :=
  ⟨⟨rfl, fun _ => rfl⟩, ⟨rfl, fun _ => rfl⟩⟩

/-! ### Claim C3 -/

/-- C3 is false at its own numeric instance: with contrast 2 and brightness
50 a pixel that normalizes to 100 displays as 250 (clamp(100*2+50, 0, 255)
= 250), not 255; on the slice [0, 100, 255] the middle pixel normalizes to
100 and displays as 250. -/
theorem normalized_100_displays_250 :
    display_image 50 2 [0, 100, 255] = [50, 250, 255] ∧
    specDisplayPixel 50 2 0 255 100 = 250 ∧ ((250 : ℤ) ≠ 255) := by
  norm_num [display_image, code_pixel, clip255, specDisplayPixel,
    listMin, listMax, min_def, max_def]

/-- C3 amended: for a non-flat slice every displayed pixel is the 8-bit
quantization of clamp(((v - min)/(max - min) * 255) * c + b, 0, 255); with
b = 0, c = 1 a pixel equal to the minimum maps to 0 and a pixel equal to
the maximum maps to 255; with c = 2, b = 50 a pixel normalizing to 100
maps to 250, not 255. -/
theorem display_formula (img : List ℚ) (b c : ℚ)
    (h : listMax img ≠ listMin img) :
    display_image b c img =
      img.map (specDisplayPixel b c (listMin img) (listMax img)) ∧
    specDisplayPixel 0 1 (listMin img) (listMax img) (listMin img) = 0 ∧
    specDisplayPixel 0 1 (listMin img) (listMax img) (listMax img) = 255 ∧
    specDisplayPixel 50 2 0 255 100 = 250 := by
  refine ⟨?_, ?_, ?_, by norm_num [specDisplayPixel, min_def, max_def]⟩
  · unfold display_image
    refine List.map_congr_left fun v _ => ?_
    simp only [code_pixel, specDisplayPixel, clip255]
    rw [if_pos h]
  · simp only [specDisplayPixel]
    rw [sub_self, zero_div]
    norm_num [min_def, max_def]
  · have hne : listMax img - listMin img ≠ 0 := sub_ne_zero.mpr h
    simp only [specDisplayPixel]
    rw [div_self hne]
    norm_num [min_def, max_def]

/-- Witness for `display_formula` at the slice [0, 100, 255] with
brightness 7 and contrast 3. -/
theorem display_formula_witness :
    (listMax [0, 100, 255] ≠ listMin [0, 100, 255]) ∧
    (display_image 7 3 [0, 100, 255] =
        ([0, 100, 255] : List ℚ).map
          (specDisplayPixel 7 3 (listMin [0, 100, 255]) (listMax [0, 100, 255])) ∧
      specDisplayPixel 0 1 (listMin [0, 100, 255]) (listMax [0, 100, 255])
        (listMin [0, 100, 255]) = 0 ∧
      specDisplayPixel 0 1 (listMin [0, 100, 255]) (listMax [0, 100, 255])
        (listMax [0, 100, 255]) = 255 ∧
      specDisplayPixel 50 2 0 255 100 = 250) :=
  ⟨by norm_num [listMin, listMax, min_def, max_def],
    display_formula [0, 100, 255] 7 3 (by norm_num [listMin, listMax, min_def, max_def])⟩

/-! ### Claim C4 -/

/-- C4 is false as stated: a flat slice with brightness 50 displays as
all-50, not all-zero. -/
theorem flat_slice_brightness_not_zero :
    display_image 50 1 [7, 7] = [50, 50] ∧ display_image 50 1 [7, 7] ≠ [0, 0] := by
  norm_num [display_image, code_pixel, clip255, listMin, listMax, min_def, max_def]

/-- C4 amended: for a flat slice (all pixels equal) every displayed pixel
equals the quantized clamp(b, 0, 255) — all-zero exactly when the
brightness term is nonpositive (in particular at the default brightness 0),
but not for every brightness. -/
theorem flat_slice_uniform (img : List ℚ) (b c v0 : ℚ)
    (h : ∀ v ∈ img, v = v0) :
    display_image b c img = img.map fun _ => Int.floor (min (max b 0) 255) := by
  have heq : listMin img = listMax img := listMin_eq_listMax img v0 h
  unfold display_image
  refine List.map_congr_left fun v _ => ?_
  simp only [code_pixel, clip255]
  rw [if_neg (not_not.mpr heq.symm), zero_mul, zero_add]

/-- Witness for `flat_slice_uniform` at the flat slice [7, 7] with
brightness -3 and contrast 5. -/
theorem flat_slice_uniform_witness :
    (∀ v ∈ ([7, 7] : List ℚ), v = 7) ∧
    display_image (-3) 5 [7, 7] =
      ([7, 7] : List ℚ).map fun _ => Int.floor (min (max (-3 : ℚ) 0) 255) :=
  ⟨by simp, flat_slice_uniform [7, 7] (-3) 5 7 (by simp)⟩

/-! ### Claim C7 -/

/-- C7: the transfer-function builder emits exactly four control points per
function at scalar positions min, 0.25*max, 0.5*max, max, with opacities
0, 0.1, 0.4, 1 and colors (0,0,0), (0.85,0.55,0.3), (0.95,0.85,0.7),
(1,1,1), in that order; for a volume with min 0 and max 1000 the opacity
positions are 0, 250, 500, 1000. -/
theorem transfer_function_points (vol : List ℚ) :
    color_points vol =
      [(listMin vol, 0, 0, 0),
       (0.25 * listMax vol, 0.85, 0.55, 0.3),
       (0.5 * listMax vol, 0.95, 0.85, 0.7),
       (listMax vol, 1, 1, 1)] ∧
    opacity_points vol =
      [(listMin vol, 0), (0.25 * listMax vol, 0.1),
       (0.5 * listMax vol, 0.4), (listMax vol, 1)] ∧
    (color_points vol).length = 4 ∧ (opacity_points vol).length = 4 ∧
    opacity_points [0, 1000] = [(0, 0), (250, 0.1), (500, 0.4), (1000, 1)] := by
  refine ⟨?_, ?_, rfl, rfl,
    by norm_num [opacity_points, listMin, listMax, min_def, max_def]⟩ <;>
    simp [color_points, opacity_points, mul_comm]

/-! ### Claim C8 -/

/-- C8 is false in general: for a volume with min 2 and max 4 the emitted
scalar positions are 2, 1, 2, 4, which are not strictly increasing. -/
theorem tf_positions_not_increasing :
    strictIncr ((opacity_points [2, 3, 4]).map Prod.fst) = false ∧
    strictIncr ((color_points [2, 3, 4]).map Prod.fst) = false := by
  norm_num [strictIncr, opacity_points, color_points, listMin, listMax,
    min_def, max_def]

/-- C8 amended: the scalar positions of both control-point sequences are
strictly increasing provided the volume maximum is positive and the volume
minimum lies below a quarter of the maximum. -/
theorem tf_positions_increasing (vol : List ℚ)
    (h1 : 0 < listMax vol) (h2 : listMin vol < 0.25 * listMax vol) :
    strictIncr ((color_points vol).map Prod.fst) = true ∧
    strictIncr ((opacity_points vol).map Prod.fst) = true := by
  have k1 : listMin vol < listMax vol * 0.25 := by linarith
  have k2 : listMax vol * 0.25 < listMax vol * 0.5 := by linarith
  have k3 : listMax vol * 0.5 < listMax vol := by linarith
  constructor <;> simp [color_points, opacity_points, strictIncr, k1, k2, k3]

/-- Witness for `tf_positions_increasing` at the volume [0, 8]. -/
theorem tf_positions_increasing_witness :
    ((0 : ℚ) < listMax [0, 8] ∧ listMin [0, 8] < 0.25 * listMax [0, 8]) ∧
    (strictIncr ((color_points [0, 8]).map Prod.fst) = true ∧
      strictIncr ((opacity_points [0, 8]).map Prod.fst) = true) :=
  ⟨⟨by norm_num [listMax, max_def], by norm_num [listMin, listMax, min_def, max_def]⟩,
    tf_positions_increasing [0, 8] (by norm_num [listMax, max_def])
      (by norm_num [listMin, listMax, min_def, max_def])⟩

/-! ### Claim C9 -/

/-- C9 is false for even extents: loading a volume with every axis extent
10 centers each slider at (10 - 1) // 2 = 4, not at 10 // 2 = 5. -/
theorem load_centers_at_maximum_halved :
    (load_image 10 10 10 initState).xy_idx = 4 ∧ Int.fdiv (10 : ℤ) 2 = 5 ∧
    ((4 : ℤ) ≠ 5) := by
  decide

/-- C9 amended: loading a volume with axis extents D0, D1, D2 (each at
least 1) clears the crosshair and sets each slice index to
(extent - 1) // 2, the floor-halved maximum index. -/
theorem load_resets_state (D0 D1 D2 : ℤ) (s : ViewerState)
    (h0 : 1 ≤ D0) (h1 : 1 ≤ D1) (h2 : 1 ≤ D2) :
    (load_image D0 D1 D2 s).crosshair = none ∧
    (load_image D0 D1 D2 s).xy_idx = Int.fdiv (D0 - 1) 2 ∧
    (load_image D0 D1 D2 s).xz_idx = Int.fdiv (D1 - 1) 2 ∧
    (load_image D0 D1 D2 s).zy_idx = Int.fdiv (D2 - 1) 2 := by
  have e0 : Int.fdiv (D0 - 1) 2 = (D0 - 1) / 2 := Int.fdiv_eq_ediv _ (by norm_num)
  have e1 : Int.fdiv (D1 - 1) 2 = (D1 - 1) / 2 := Int.fdiv_eq_ediv _ (by norm_num)
  have e2 : Int.fdiv (D2 - 1) 2 = (D2 - 1) / 2 := Int.fdiv_eq_ediv _ (by norm_num)
  refine ⟨rfl, ?_, ?_, ?_⟩
  · exact setValue_eq _ _ (by rw [e0]; omega) (by rw [e0]; omega)
  · exact setValue_eq _ _ (by rw [e1]; omega) (by rw [e1]; omega)
  · exact setValue_eq _ _ (by rw [e2]; omega) (by rw [e2]; omega)

/-- Witness for `load_resets_state` on a volume of shape (3, 3, 3). -/
theorem load_resets_state_witness :
    ((1 : ℤ) ≤ 3) ∧
    ((load_image 3 3 3 initState).crosshair = none ∧
      (load_image 3 3 3 initState).xy_idx = Int.fdiv (3 - 1) 2 ∧
      (load_image 3 3 3 initState).xz_idx = Int.fdiv (3 - 1) 2 ∧
      (load_image 3 3 3 initState).zy_idx = Int.fdiv (3 - 1) 2) :=
  ⟨by decide, load_resets_state 3 3 3 initState (by decide) (by decide) (by decide)⟩

/-! ### Claim C5 -/

/-- C5: for a click inside the centered scaled image, the xy handler maps
the click to in-slice indices ix = floor((px - offset_x)/Cw * D2) and
iy = floor((py - offset_y)/Ch * D1) and sets the xz slider to
(D1 - 1) - iy and the zy slider to (D2 - 1) - ix; the zy handler maps with
widths D1, D0 and sets the xy slider to (D0 - 1) - iy and the xz slider to
(D1 - 1) - ix.  The crosshair becomes the click point. -/
theorem click_maps_to_flipped_indices
    (D0 D1 D2 Lw Lh Cw Ch px py offx offy : ℤ) (s : ViewerState)
    (hD0 : 1 ≤ D0) (hD1 : 1 ≤ D1) (hD2 : 1 ≤ D2)
    (hox : offx = Int.fdiv (Lw - Cw) 2) (hoy : offy = Int.fdiv (Lh - Ch) 2)
    (h1 : offx ≤ px) (h2 : px < offx + Cw) (h3 : offy ≤ py) (h4 : py < offy + Ch) :
    mouse_press_event_xy (some (D0, D1, D2)) true Lw Lh (some (Cw, Ch)) px py s =
      some { s with
        xz_idx := (D1 - 1) -
          Int.floor (((py - offy : ℤ) : ℚ) / ((Ch : ℤ) : ℚ) * ((D1 : ℤ) : ℚ)),
        zy_idx := (D2 - 1) -
          Int.floor (((px - offx : ℤ) : ℚ) / ((Cw : ℤ) : ℚ) * ((D2 : ℤ) : ℚ)),
        crosshair := some (px, py) } ∧
    mouse_press_event_zy (some (D0, D1, D2)) true Lw Lh (some (Cw, Ch)) px py s =
      some { s with
        xy_idx := (D0 - 1) -
          Int.floor (((py - offy : ℤ) : ℚ) / ((Ch : ℤ) : ℚ) * ((D0 : ℤ) : ℚ)),
        xz_idx := (D1 - 1) -
          Int.floor (((px - offx : ℤ) : ℚ) / ((Cw : ℤ) : ℚ) * ((D1 : ℤ) : ℚ)),
        crosshair := some (px, py) } := by
  have hx0 : 0 ≤ px - offx := by omega
  have hxC : px - offx < Cw := by omega
  have hy0 : 0 ≤ py - offy := by omega
  have hyC : py - offy < Ch := by omega
  have hCw : 0 < Cw := by omega
  have hCh : 0 < Ch := by omega
  have bx2 := floorMap_nonneg (px - offx) Cw D2 hx0 hCw (by omega)
  have bx2' := floorMap_lt (px - offx) Cw D2 hx0 hxC (by omega)
  have bx1 := floorMap_nonneg (px - offx) Cw D1 hx0 hCw (by omega)
  have bx1' := floorMap_lt (px - offx) Cw D1 hx0 hxC (by omega)
  have by1 := floorMap_nonneg (py - offy) Ch D1 hy0 hCh (by omega)
  have by1' := floorMap_lt (py - offy) Ch D1 hy0 hyC (by omega)
  have by0 := floorMap_nonneg (py - offy) Ch D0 hy0 hCh (by omega)
  have by0' := floorMap_lt (py - offy) Ch D0 hy0 hyC (by omega)
  constructor
  · show (if 0 ≤ px - Int.fdiv (Lw - Cw) 2 ∧ px - Int.fdiv (Lw - Cw) 2 < Cw ∧
        0 ≤ py - Int.fdiv (Lh - Ch) 2 ∧ py - Int.fdiv (Lh - Ch) 2 < Ch then
        _ else _) = _
    rw [← hox, ← hoy, if_pos ⟨hx0, hxC, hy0, hyC⟩,
      setValue_eq _ _ (by omega) (by omega), setValue_eq _ _ (by omega) (by omega)]
  · show (if 0 ≤ px - Int.fdiv (Lw - Cw) 2 ∧ px - Int.fdiv (Lw - Cw) 2 < Cw ∧
        0 ≤ py - Int.fdiv (Lh - Ch) 2 ∧ py - Int.fdiv (Lh - Ch) 2 < Ch then
        _ else _) = _
    rw [← hox, ← hoy, if_pos ⟨hx0, hxC, hy0, hyC⟩,
      setValue_eq _ _ (by omega) (by omega), setValue_eq _ _ (by omega) (by omega)]

/-- Witness for `click_maps_to_flipped_indices`: shape (4, 6, 8), a
100 × 100 label showing an 80 × 60 scaled image (offsets 10, 20), click at
(30, 50). -/
theorem click_maps_witness :
    ((1 : ℤ) ≤ 4 ∧ (10 : ℤ) = Int.fdiv (100 - 80) 2 ∧
      (20 : ℤ) = Int.fdiv (100 - 60) 2 ∧ (10 : ℤ) ≤ 30 ∧ (30 : ℤ) < 10 + 80 ∧
      (20 : ℤ) ≤ 50 ∧ (50 : ℤ) < 20 + 60) ∧
    (mouse_press_event_xy (some (4, 6, 8)) true 100 100 (some (80, 60)) 30 50 initState =
      some { initState with
        xz_idx := (6 - 1) -
          Int.floor (((50 - 20 : ℤ) : ℚ) / (((60 : ℤ) : ℤ) : ℚ) * (((6 : ℤ) : ℤ) : ℚ)),
        zy_idx := (8 - 1) -
          Int.floor (((30 - 10 : ℤ) : ℚ) / (((80 : ℤ) : ℤ) : ℚ) * (((8 : ℤ) : ℤ) : ℚ)),
        crosshair := some (30, 50) } ∧
    mouse_press_event_zy (some (4, 6, 8)) true 100 100 (some (80, 60)) 30 50 initState =
      some { initState with
        xy_idx := (4 - 1) -
          Int.floor (((50 - 20 : ℤ) : ℚ) / (((60 : ℤ) : ℤ) : ℚ) * (((4 : ℤ) : ℤ) : ℚ)),
        xz_idx := (6 - 1) -
          Int.floor (((30 - 10 : ℤ) : ℚ) / (((80 : ℤ) : ℤ) : ℚ) * (((6 : ℤ) : ℤ) : ℚ)),
        crosshair := some (30, 50) }) :=
  ⟨⟨by decide, by decide, by decide, by decide, by decide, by decide, by decide⟩,
    click_maps_to_flipped_indices 4 6 8 100 100 80 60 30 50 10 20 initState
      (by decide) (by decide) (by decide) (by decide) (by decide)
      (by decide) (by decide) (by decide) (by decide)⟩

/-! ### Claim C6 -/

/-- C6: a click at a label point outside the centered scaled-image bounds
changes nothing: the xy and zy handlers return the state unchanged, so
every slice index, brightness, contrast, zoom and the crosshair are as
before the click. -/
theorem outside_click_leaves_state
    (D0 D1 D2 Lw Lh Cw Ch px py offx offy : ℤ) (s : ViewerState) (inRect : Bool)
    (hox : offx = Int.fdiv (Lw - Cw) 2) (hoy : offy = Int.fdiv (Lh - Ch) 2)
    (hout : ¬ (offx ≤ px ∧ px < offx + Cw ∧ offy ≤ py ∧ py < offy + Ch)) :
    mouse_press_event_xy (some (D0, D1, D2)) inRect Lw Lh (some (Cw, Ch)) px py s = some s ∧
    mouse_press_event_zy (some (D0, D1, D2)) inRect Lw Lh (some (Cw, Ch)) px py s = some s := by
  cases inRect with
  | false => exact ⟨rfl, rfl⟩
  | true =>
    constructor
    · show (if 0 ≤ px - Int.fdiv (Lw - Cw) 2 ∧ px - Int.fdiv (Lw - Cw) 2 < Cw ∧
          0 ≤ py - Int.fdiv (Lh - Ch) 2 ∧ py - Int.fdiv (Lh - Ch) 2 < Ch then
          _ else _) = _
      rw [← hox, ← hoy, if_neg (by omega)]
    · show (if 0 ≤ px - Int.fdiv (Lw - Cw) 2 ∧ px - Int.fdiv (Lw - Cw) 2 < Cw ∧
          0 ≤ py - Int.fdiv (Lh - Ch) 2 ∧ py - Int.fdiv (Lh - Ch) 2 < Ch then
          _ else _) = _
      rw [← hox, ← hoy, if_neg (by omega)]

/-- Witness for `outside_click_leaves_state`: click at (1, 1) in the
letterbox padding of a 100 × 100 label showing an 80 × 60 scaled image. -/
theorem outside_click_witness :
    ((10 : ℤ) = Int.fdiv (100 - 80) 2 ∧ (20 : ℤ) = Int.fdiv (100 - 60) 2 ∧
      ¬ ((10 : ℤ) ≤ 1 ∧ (1 : ℤ) < 10 + 80 ∧ (20 : ℤ) ≤ 1 ∧ (1 : ℤ) < 20 + 60)) ∧
    (mouse_press_event_xy (some (4, 6, 8)) true 100 100 (some (80, 60)) 1 1 initState =
        some initState ∧
      mouse_press_event_zy (some (4, 6, 8)) true 100 100 (some (80, 60)) 1 1 initState =
        some initState) :=
  ⟨⟨by decide, by decide, by decide⟩,
    outside_click_leaves_state 4 6 8 100 100 80 60 1 1 10 20 initState true
      (by decide) (by decide) (by decide)⟩

/-! ### Claim C10 -/

/-- C10 (code bug): in the initial empty state, before any volume has been
loaded, a click on the xy or zy label reads `image_array.shape` before the
`None` guard, so the handler raises `AttributeError` (modelled as the error
result `none`) instead of completing with no state change. -/
theorem empty_state_click_raises :
    mouse_press_event_xy none true 100 100 none 5 5 initState = none ∧
    mouse_press_event_zy none true 100 100 none 5 5 initState = none :=
  ⟨rfl, rfl⟩

end NiftiViewer
